import Mathlib

/-!
Verification development for the Pithon evaluator
(`src/pithon/evaluator/evaluator.py`).

The evaluator walks an already-parsed syntax tree and computes values,
with chained lexical environment frames, closures, an object/class model
and return/break/continue carried as exceptions.  The embedding below is
a fuel-indexed big-step interpreter over an explicit heap:

* environment frames and objects live in append-only stores inside `St`,
  so closures capture their definition frame *by reference* as in the
  Python code (`VFunctionClosure(node, env)` stores the frame itself);
* Python exceptions are modelled by the `Exc` type: `TypeError`,
  `ZeroDivisionError`, `ValueError`, `IndexError`, `AttributeError`,
  `RuntimeError` and the three control-flow exceptions `ReturnException`,
  `BreakException`, `ContinueException`;
* the `try/except (TypeError, ZeroDivisionError, ValueError)` wrapper at
  the end of `evaluate` and `evaluate_stmt` is `wrapOutcome`: it turns
  exactly those three exception kinds into `RuntimeError` and lets every
  other exception (including `IndexError`, `AttributeError` and the
  control-flow exceptions) pass unchanged;
* Python floats are modelled by rationals; `int(x)` truncation toward
  zero is `ratTrunc`;
* the state is threaded through exceptions, because in Python mutations
  performed before an exception is raised survive the unwinding.

The lexer/parser, the primitive-procedure table (`get_primitive_dict`)
and the helpers `EnvFrame` / `check_type` live outside `src/`; the parts
of their behaviour the evaluator relies on are modelled from the spec
and marked as such in their doc comments.
-/

set_option maxHeartbeats 1000000

namespace Pithon

/-! ## Syntax trees (the `pithon.syntax` node shapes used by the evaluator) -/

mutual

/-- Syntax-tree nodes, one constructor per `Pi*` variant dispatched on by
`evaluate_stmt`.  Field shapes are exactly the attributes the evaluator
reads (`node.value`, `node.elements`, `node.condition`, ...). -/
inductive PiStatement where
  | piNumber (value : ℚ)
  | piBool (value : Bool)
  | piNone
  | piString (value : String)
  | piList (elements : List PiStatement)
  | piTuple (elements : List PiStatement)
  | piVariable (name : String)
  | piBinaryOperation (operator : String) (left right : PiStatement)
  | piAssignment (name : String) (value : PiStatement)
  | piIfThenElse (condition : PiStatement) (thenBranch elseBranch : List PiStatement)
  | piNot (operand : PiStatement)
  | piAnd (left right : PiStatement)
  | piOr (left right : PiStatement)
  | piWhile (condition : PiStatement) (body : List PiStatement)
  | piFunctionDef (funcdef : FuncDefData)
  | piReturn (value : PiStatement)
  | piFunctionCall (function : PiStatement) (args : List PiStatement)
  | piFor (var : String) (iterable : PiStatement) (body : List PiStatement)
  | piBreak
  | piContinue
  | piIn (container element : PiStatement)
  | piSubscript (collection index : PiStatement)
  | piClassDef (name : String) (methods : List FuncDefData)
  | piAttribute (object : PiStatement) (attr : String)
  | piAttributeAssignment (object : PiStatement) (attr : String) (value : PiStatement)

/-- The fields of a `PiFunctionDef` node read by the evaluator:
`name`, `arg_names`, `vararg` and `body`. -/
inductive FuncDefData where
  | mk (name : String) (argNames : List String) (vararg : Option String)
       (body : List PiStatement)

end

/-- Field accessor mirroring `funcdef.name`. -/
def FuncDefData.name : FuncDefData → String
  | .mk n _ _ _ => n

/-- Field accessor mirroring `funcdef.arg_names`. -/
def FuncDefData.argNames : FuncDefData → List String
  | .mk _ a _ _ => a

/-- Field accessor mirroring `funcdef.vararg`. -/
def FuncDefData.vararg : FuncDefData → Option String
  | .mk _ _ v _ => v

/-- Field accessor mirroring `funcdef.body`. -/
def FuncDefData.body : FuncDefData → List PiStatement
  | .mk _ _ _ b => b

/-! ## Runtime values (`pithon.evaluator.envvalue`) -/

/-- Runtime values.  Frames and objects are mutable in the source, so
`vFunctionClosure`/`vMethodClosure` hold the *index* of the captured
frame in the frame store and `vObject` holds the index of the object in
the object store; this is the reference sharing the Python code gets
from ordinary object identity.  A `vClassDef` carries the method table
built at class-definition time (method name to function definition plus
captured frame). -/
inductive Value where
  | vNumber (n : ℚ)
  | vBool (b : Bool)
  | vNone
  | vString (s : String)
  | vList (elems : List Value)
  | vTuple (elems : List Value)
  | vFunctionClosure (funcdef : FuncDefData) (closureEnv : Nat)
  | vMethodClosure (funcdef : FuncDefData) (closureEnv : Nat) (inst : Nat)
  | vClassDef (name : String) (methods : List (String × FuncDefData × Nat))
  | vObject (ref : Nat)

/-- The Python exceptions the evaluator raises, catches or re-raises,
plus `outOfFuel` for exhaustion of the step budget of the embedding.
`unboundName` stands for the exception raised by `EnvFrame.lookup`
(whose host class is not determined by the sources under `src/`). -/
inductive Exc where
  | typeError (msg : String)
  | zeroDivisionError (msg : String)
  | valueError (msg : String)
  | indexError
  | attributeError (msg : String)
  | unboundName (name : String)
  | runtimeError (msg : String)
  | returnExc (v : Value)
  | breakExc
  | continueExc
  | invalidRef
  | outOfFuel

/-- Result of evaluating one node: a value or a raised exception. -/
inductive Outcome where
  | ok (v : Value)
  | exc (e : Exc)

/-- One environment frame: its own bindings and an optional parent frame
(an index into the frame store). -/
structure EnvFrame where
  vars : List (String × Value)
  parent : Option Nat

/-- One heap object: its class (name and method table, shared and
immutable after definition) and its private attribute mapping. -/
structure ObjData where
  className : String
  methods : List (String × FuncDefData × Nat)
  attrs : List (String × Value)

/-- The mutable runtime state: the frame store and the object store.
Both are append-only; indices are stable. -/
structure St where
  frames : List EnvFrame
  objects : List ObjData

/-! ## Association-list dictionaries -/

/-- Lookup in an insertion-ordered dictionary. -/
def assocGet {α : Type} (k : String) : List (String × α) → Option α
  | [] => none
  | (k2, v) :: rest => if k2 = k then some v else assocGet k rest

/-- Python-dict insertion: overwrite an existing key in place, otherwise
append at the end. -/
def assocSet {α : Type} (k : String) (v : α) : List (String × α) → List (String × α)
  | [] => [(k, v)]
  | (k2, v2) :: rest => if k2 = k then (k, v) :: rest else (k2, v2) :: assocSet k v rest

/-- Replace the element at an index, leaving other positions unchanged. -/
def listModify {α : Type} : List α → Nat → (α → α) → List α
  | [], _, _ => []
  | x :: xs, 0, f => f x :: xs
  | x :: xs, n + 1, f => x :: listModify xs n f

/-! ## Environment operations

Modelled from the spec: `EnvFrame` lives in `pithon/evaluator/envframe.py`,
which is not under `src/`.  Spec section 3: `lookup(name)` walks from the
current frame to the root and returns the first match or fails
`UnboundName`; `insert(name, value)` always writes into the current
frame, never into an ancestor. -/

/-- Modelled from the spec: `EnvFrame.lookup` walks the parent chain from
frame `fid` and returns the first binding of `name`, failing `UnboundName`
at the root.  The extra `Nat` argument is recursion fuel; the evaluator
only builds frames whose parent indices strictly decrease, so
`frames.length` steps always suffice. -/
def lookupVar (frames : List EnvFrame) : Nat → Nat → String → Except Exc Value
  | 0, _, name => .error (.unboundName name)
  | f + 1, fid, name =>
    match frames[fid]? with
    | none => .error (.unboundName name)
    | some fr =>
      match assocGet name fr.vars with
      | some v => .ok v
      | none =>
        match fr.parent with
        | none => .error (.unboundName name)
        | some p => lookupVar frames f p name

/-- Modelled from the spec: `EnvFrame.insert` writes a binding into the
current frame only. -/
def insertVar (fid : Nat) (name : String) (v : Value) (st : St) : St :=
  { st with frames := listModify st.frames fid fun fr => { fr with vars := assocSet name v fr.vars } }

/-- The two steps of `EnvFrame(parent=closure_env)` at a call boundary:
the index of the freshly appended frame and the state holding it.  The
new frame is empty and its parent is the given frame. -/
def callFrameSetup (cenv : Nat) (st : St) : Nat × St :=
  (st.frames.length, { st with frames := st.frames ++ [{ vars := [], parent := some cenv }] })

/-- Overwrite the bindings of the frame at `fid`. -/
def setFrameVars (fid : Nat) (vars : List (String × Value)) (st : St) : St :=
  { st with frames := listModify st.frames fid (fun fr => { fr with vars := vars }) }

/-- Allocation step of class instantiation (`VObject(class_def=...,
attributes={})`): append a new object with an *empty* attribute mapping
and return its index. -/
def allocObject (cname : String) (methods : List (String × FuncDefData × Nat)) (st : St) :
    Nat × St :=
  (st.objects.length, { st with objects := st.objects ++ [⟨cname, methods, []⟩] })

/-! ## Value predicates and structural equality -/

/-- Python truthiness of the payloads stored in the value variants used
by `not` / `and` / `or` (`not operand.value` etc.). -/
def truthy : Value → Bool
  | .vNumber n => !(n == 0)
  | .vBool b => b
  | .vString s => !(s == "")
  | .vNone => false
  | .vList l => !l.isEmpty
  | .vTuple l => !l.isEmpty
  | _ => true

/-- The kind check of `_check_valid_piandor_type`: `and`/`or`/`not`
operands must be Bool, Number, String, None, List or Tuple. -/
def andOrTypeOk : Value → Bool
  | .vBool _ => true
  | .vNumber _ => true
  | .vString _ => true
  | .vNone => true
  | .vList _ => true
  | .vTuple _ => true
  | _ => false

mutual

/-- Modelled from the spec: the `==` used by list/tuple membership comes
from `envvalue.py`, which is not under `src/`; spec section 4.1 specifies
structural equality for List/Tuple membership.  Values of different
kinds compare unequal; equality on closure and class values is not used
by any claim and is modelled as `false`; objects compare by reference. -/
def valueEq : Value → Value → Bool
  | .vNumber a, .vNumber b => a == b
  | .vBool a, .vBool b => a == b
  | .vNone, .vNone => true
  | .vString a, .vString b => a == b
  | .vList a, .vList b => valueListEq a b
  | .vTuple a, .vTuple b => valueListEq a b
  | .vObject a, .vObject b => a == b
  | _, _ => false

/-- Elementwise structural equality of value sequences. -/
def valueListEq : List Value → List Value → Bool
  | [], [] => true
  | a :: as_, b :: bs => valueEq a b && valueListEq as_ bs
  | _, _ => false

end

/-- Contiguous-subsequence (Python substring) test on character lists. -/
def isSubSeq (needle : List Char) : List Char → Bool
  | [] => needle.isEmpty
  | c :: rest => needle.isPrefixOf (c :: rest) || isSubSeq needle rest

/-! ## Error messages (transliterated from the French source strings) -/

def checkTypeMsg : String := "TypeMismatch"

def andOrTypeMsg : String := "Type non supporte pour l operateur and"

def forTypeMsg : String := "La boucle for attend une liste ou un tuple."

def subscriptTypeMsg : String :=
  "L indexation n est supportee que pour les listes, tuples et chaines."

def inTypeMsg : String := "Le in n est supporte que pour les listes et chaines."

def notCallableMsg : String := "Tentative d appel d un objet non fonction."

def missingArgFunMsg : String := "Argument manquant pour la fonction."

def tooManyArgFunMsg : String := "Trop d arguments pour la fonction."

def missingArgMethodMsg (n : String) : String :=
  "Argument manquant " ++ n ++ " pour la methode."

def tooManyArgMethodMsg : String := "Trop d arguments pour la methode."

def selfMsg : String := "La premiere argument d une methode doit etre self."

def attrTypeMsg : String := "Seuls les objets peuvent avoir des attributs."

def noAttrMsg (a : String) : String := "L objet n a pas d attribut " ++ a

def unsupportedNodeMsg : String := "Type de noeud non supporte."

/-! ## Type checks and pure evaluation helpers -/

/-- Modelled from the spec: `check_type(cond, VBool)` from
`pithon/evaluator/primitive.py` (not under `src/`); a non-Bool fails
`TypeMismatch` (a `TypeError` in the host). -/
def checkBool : Value → Except Exc Bool
  | .vBool b => .ok b
  | _ => .error (.typeError checkTypeMsg)

/-- Modelled from the spec: `check_type(index, VNumber)`; a non-Number
fails `TypeMismatch` (a `TypeError` in the host). -/
def checkNumber : Value → Except Exc ℚ
  | .vNumber q => .ok q
  | _ => .error (.typeError checkTypeMsg)

/-- Python `int(x)`: truncation toward zero of the rational modelling
the float. -/
def ratTrunc (q : ℚ) : Int := Int.tdiv q.num q.den

/-- Python sequence indexing `seq[i]`: non-negative indices count from
the front, negative indices count from the end, anything out of range is
`IndexError` (`none`). -/
def pyGetElem {α : Type} (l : List α) (i : Int) : Option α :=
  if 0 ≤ i then l[i.toNat]?
  else if (-i).toNat ≤ l.length then l[l.length - (-i).toNat]? else none

/-- The pure part of `_evaluate_subscript` after both operands are
evaluated: dispatch on the collection kind, `check_type(_, VNumber)`,
`int(...)` truncation, Python indexing; a String subscript rebuilds a
one-character String. -/
def subscriptValue : Value → Value → Except Exc Value
  | .vList elems, idxv =>
    match checkNumber idxv with
    | .error e => .error e
    | .ok q =>
      match pyGetElem elems (ratTrunc q) with
      | some v => .ok v
      | none => .error .indexError
  | .vTuple elems, idxv =>
    match checkNumber idxv with
    | .error e => .error e
    | .ok q =>
      match pyGetElem elems (ratTrunc q) with
      | some v => .ok v
      | none => .error .indexError
  | .vString s, idxv =>
    match checkNumber idxv with
    | .error e => .error e
    | .ok q =>
      match pyGetElem s.toList (ratTrunc q) with
      | some c => .ok (.vString c.toString)
      | none => .error .indexError
  | _, _ => .error (.typeError subscriptTypeMsg)

/-- The pure part of `_evaluate_in` after both operands are evaluated:
List/Tuple containers use structural-equality membership, a String
container does a substring test when the element is a String and yields
`False` otherwise, and every other container kind is a `TypeError`. -/
def inValue (container element : Value) : Except Exc Value :=
  match container with
  | .vList elems => .ok (.vBool (elems.any (fun x => valueEq element x)))
  | .vTuple elems => .ok (.vBool (elems.any (fun x => valueEq element x)))
  | .vString s =>
    match element with
    | .vString t => .ok (.vBool (isSubSeq t.toList s.toList))
    | _ => .ok (.vBool false)
  | _ => .error (.typeError inTypeMsg)

/-! ## Exception wrapping and boundaries -/

/-- The `except (TypeError, ZeroDivisionError, ValueError) as e: raise
RuntimeError(str(e))` clause shared by `evaluate` and `evaluate_stmt`:
exactly those three exception kinds become the uniform `RuntimeError`,
every other exception passes through unchanged. -/
def wrapExc : Exc → Exc
  | .typeError m => .runtimeError m
  | .zeroDivisionError m => .runtimeError m
  | .valueError m => .runtimeError m
  | e => e

/-- Apply `wrapExc` to an exception outcome; ordinary values pass. -/
def wrapOutcome : Outcome × St → Outcome × St
  | (.exc e, st) => (.exc (wrapExc e), st)
  | r => r

/-- The `try ... except ReturnException as ret: return ret.value` at the
end of `_execute_function_call`: the call boundary converts `Returning`
into the call result and intercepts nothing else. -/
def callBoundary : Outcome × St → Outcome × St
  | (.exc (.returnExc v), st) => (.ok v, st)
  | r => r

/-! ## Parameter binding (`_execute_function_call` lines 274-283) -/

/-- The loop `for i, arg_name in enumerate(funcdef.arg_names)`: bind
declared parameters to arguments 1:1 in order into the accumulated frame
dictionary; running out of arguments raises
`TypeError("Argument manquant pour la fonction.")`. -/
def bindPositional : List String → List Value → List (String × Value) →
    Except Exc (List (String × Value))
  | [], _, acc => .ok acc
  | _ :: _, [], _ => .error (.typeError missingArgFunMsg)
  | n :: ns, a :: as_, acc => bindPositional ns as_ (assocSet n a acc)

/-- Full parameter binding of the function-call protocol: positional
binding, then either collect the surplus arguments into a fresh List
bound to the vararg name, or (no vararg) reject surplus arguments with
`TypeError("Trop d arguments pour la fonction.")`. -/
def bindParams (fd : FuncDefData) (args : List Value) :
    Except Exc (List (String × Value)) :=
  match bindPositional fd.argNames args [] with
  | .error e => .error e
  | .ok acc =>
    match fd.vararg with
    | some vn => .ok (assocSet vn (.vList (args.drop fd.argNames.length)) acc)
    | none =>
      if args.length > fd.argNames.length then .error (.typeError tooManyArgFunMsg)
      else .ok acc

/-- The positional loop of `_execute_method_call` over
`funcdef.arg_names[1:]`; its missing-argument message names the
parameter.  Note the method path has *no* vararg collection. -/
def bindMethodPositional : List String → List Value → List (String × Value) →
    Except Exc (List (String × Value))
  | [], _, acc => .ok acc
  | n :: _, [], _ => .error (.typeError (missingArgMethodMsg n))
  | n :: ns, a :: as_, acc => bindMethodPositional ns as_ (assocSet n a acc)

/-! ## The evaluator

One mutually recursive block mirroring `evaluate`, `evaluate_stmt` and
the `_evaluate_*` / `_execute_*` helpers.  The first argument of every
function is fuel; each nested evaluation step consumes one unit, so the
recursion is structural and every definition reduces on closed inputs.
Exhausted fuel yields the artificial exception `outOfFuel`, which no
boundary intercepts. -/

mutual

/-- Mirror of `evaluate` restricted to statement lists (`PiProgram`):
evaluate the statements in order in one frame and yield the last value
(`VNone` for an empty sequence), wrapping `TypeError` /
`ZeroDivisionError` / `ValueError` into `RuntimeError`. -/
def evaluate : Nat → List PiStatement → Nat → St → Outcome × St
  | 0, _, _, st => (.exc .outOfFuel, st)
  | f + 1, stmts, env, st => wrapOutcome (runBody f stmts env st .vNone)
termination_by structural fuel => fuel

/-- The shared statement-sequence loop (`last_value = ...; for stmt in
...: last_value = evaluate_stmt(stmt, env)`), used both by `evaluate`
and by the call bodies, which iterate `evaluate_stmt` directly.  The
first raised exception aborts the remainder of the sequence. -/
def runBody : Nat → List PiStatement → Nat → St → Value → Outcome × St
  | 0, _, _, st, _ => (.exc .outOfFuel, st)
  | _ + 1, [], _, st, last => (.ok last, st)
  | f + 1, s :: rest, env, st, _ =>
    match evaluateStmt f s env st with
    | (.ok v, st1) => runBody f rest env st1 v
    | (.exc e, st1) => (.exc e, st1)
termination_by structural fuel => fuel

/-- Left-to-right evaluation of expression lists (list/tuple elements
and call arguments). -/
def evalArgs : Nat → List PiStatement → Nat → St → Except Exc (List Value) × St
  | 0, _, _, st => (.error .outOfFuel, st)
  | _ + 1, [], _, st => (.ok [], st)
  | f + 1, e :: es, env, st =>
    match evaluateStmt f e env st with
    | (.ok v, st1) =>
      match evalArgs f es env st1 with
      | (.ok vs, st2) => (.ok (v :: vs), st2)
      | (.error ex, st2) => (.error ex, st2)
    | (.exc ex, st1) => (.error ex, st1)
termination_by structural fuel => fuel

/-- Mirror of `evaluate_stmt`: dispatch on the node variant, with the
whole dispatch guarded by the `TypeError`/`ZeroDivisionError`/
`ValueError` to `RuntimeError` wrapper. -/
def evaluateStmt : Nat → PiStatement → Nat → St → Outcome × St
  | 0, _, _, st => (.exc .outOfFuel, st)
  | f + 1, node, env, st =>
    wrapOutcome
      (match node with
      | .piNumber n => (.ok (.vNumber n), st)
      | .piBool b => (.ok (.vBool b), st)
      | .piNone => (.ok .vNone, st)
      | .piString s => (.ok (.vString s), st)
      | .piList es =>
        match evalArgs f es env st with
        | (.ok vs, st1) => (.ok (.vList vs), st1)
        | (.error e, st1) => (.exc e, st1)
      | .piTuple es =>
        match evalArgs f es env st with
        | (.ok vs, st1) => (.ok (.vTuple vs), st1)
        | (.error e, st1) => (.exc e, st1)
      | .piVariable name =>
        match lookupVar st.frames st.frames.length env name with
        | .ok v => (.ok v, st)
        | .error e => (.exc e, st)
      | .piBinaryOperation op l r =>
        evaluateStmt f (.piFunctionCall (.piVariable op) [l, r]) env st
      | .piAssignment name value =>
        match evaluateStmt f value env st with
        | (.ok v, st1) => (.ok v, insertVar env name v st1)
        | (.exc e, st1) => (.exc e, st1)
      | .piIfThenElse c tb eb =>
        match evaluateStmt f c env st with
        | (.exc e, st1) => (.exc e, st1)
        | (.ok cv, st1) =>
          match checkBool cv with
          | .error e => (.exc e, st1)
          | .ok b => evaluate f (if b then tb else eb) env st1
      | .piNot operand =>
        match evaluateStmt f operand env st with
        | (.exc e, st1) => (.exc e, st1)
        | (.ok v, st1) =>
          if andOrTypeOk v then (.ok (.vBool (!truthy v)), st1)
          else (.exc (.typeError andOrTypeMsg), st1)
      | .piAnd l r =>
        match evaluateStmt f l env st with
        | (.exc e, st1) => (.exc e, st1)
        | (.ok lv, st1) =>
          if andOrTypeOk lv then
            if !truthy lv then (.ok lv, st1)
            else
              match evaluateStmt f r env st1 with
              | (.exc e, st2) => (.exc e, st2)
              | (.ok rv, st2) =>
                if andOrTypeOk rv then (.ok rv, st2)
                else (.exc (.typeError andOrTypeMsg), st2)
          else (.exc (.typeError andOrTypeMsg), st1)
      | .piOr l r =>
        match evaluateStmt f l env st with
        | (.exc e, st1) => (.exc e, st1)
        | (.ok lv, st1) =>
          if andOrTypeOk lv then
            if truthy lv then (.ok lv, st1)
            else
              match evaluateStmt f r env st1 with
              | (.exc e, st2) => (.exc e, st2)
              | (.ok rv, st2) =>
                if andOrTypeOk rv then (.ok rv, st2)
                else (.exc (.typeError andOrTypeMsg), st2)
          else (.exc (.typeError andOrTypeMsg), st1)
      | .piWhile c body => evaluateWhile f c body env st .vNone
      | .piFunctionDef fd =>
        (.ok .vNone, insertVar env fd.name (.vFunctionClosure fd env) st)
      | .piReturn value =>
        match evaluateStmt f value env st with
        | (.ok rv, st1) => (.exc (.returnExc rv), st1)
        | (.exc e, st1) => (.exc e, st1)
      | .piFunctionCall fn args => evaluateFunctionCall f fn args env st
      | .piFor var iterable body => evaluateFor f var iterable body env st
      | .piBreak => (.exc .breakExc, st)
      | .piContinue => (.exc .continueExc, st)
      | .piIn c e => evaluateIn f c e env st
      | .piSubscript c i => evaluateSubscript f c i env st
      | .piClassDef name methods =>
        let tbl := methods.foldl (fun acc m => assocSet m.name (m, env) acc) []
        (.ok .vNone, insertVar env name (.vClassDef name tbl) st)
      | .piAttribute objE attr =>
        match evaluateStmt f objE env st with
        | (.exc e, st1) => (.exc e, st1)
        | (.ok ov, st1) =>
          match ov with
          | .vObject ref =>
            match st1.objects[ref]? with
            | none => (.exc .invalidRef, st1)
            | some od =>
              match assocGet attr od.attrs with
              | some v => (.ok v, st1)
              | none =>
                match assocGet attr od.methods with
                | some fdc => (.ok (.vMethodClosure fdc.1 fdc.2 ref), st1)
                | none => (.exc (.attributeError (noAttrMsg attr)), st1)
          | _ => (.exc (.typeError attrTypeMsg), st1)
      | .piAttributeAssignment objE attr valE =>
        match evaluateStmt f objE env st with
        | (.exc e, st1) => (.exc e, st1)
        | (.ok ov, st1) =>
          match ov with
          | .vObject ref =>
            match evaluateStmt f valE env st1 with
            | (.exc e, st2) => (.exc e, st2)
            | (.ok v, st2) =>
              let st3 := { st2 with objects := listModify st2.objects ref fun od => { od with attrs := assocSet attr v od.attrs } }
              (.ok v, st3)
          | _ => (.exc (.typeError attrTypeMsg), st1))
termination_by structural fuel => fuel

/-- Mirror of `_evaluate_while`: re-check the Bool condition before each
iteration, run the body through `evaluate`, intercept `Breaking`
(terminate, keep the last completed value) and `Continuing` (next
iteration), let everything else propagate. -/
def evaluateWhile : Nat → PiStatement → List PiStatement → Nat → St → Value → Outcome × St
  | 0, _, _, _, st, _ => (.exc .outOfFuel, st)
  | f + 1, c, body, env, st, last =>
    match evaluateStmt f c env st with
    | (.exc e, st1) => (.exc e, st1)
    | (.ok cv, st1) =>
      match checkBool cv with
      | .error e => (.exc e, st1)
      | .ok b =>
        if b then
          match evaluate f body env st1 with
          | (.ok v, st2) => evaluateWhile f c body env st2 v
          | (.exc .breakExc, st2) => (.ok last, st2)
          | (.exc .continueExc, st2) => evaluateWhile f c body env st2 last
          | (.exc e, st2) => (.exc e, st2)
        else (.ok last, st1)
termination_by structural fuel => fuel

/-- Mirror of `_evaluate_for`: the iterable must be a List or Tuple,
then iterate `forIter`. -/
def evaluateFor : Nat → String → PiStatement → List PiStatement → Nat → St → Outcome × St
  | 0, _, _, _, _, st => (.exc .outOfFuel, st)
  | f + 1, var, iterable, body, env, st =>
    match evaluateStmt f iterable env st with
    | (.exc e, st1) => (.exc e, st1)
    | (.ok it, st1) =>
      match it with
      | .vList items => forIter f var items body env st1 .vNone
      | .vTuple items => forIter f var items body env st1 .vNone
      | _ => (.exc (.typeError forTypeMsg), st1)
termination_by structural fuel => fuel

/-- The iteration loop of `_evaluate_for`: bind each element to the loop
variable in the *enclosing* frame, run the body, intercept `Breaking`
and `Continuing` exactly as the while loop does. -/
def forIter : Nat → String → List Value → List PiStatement → Nat → St → Value → Outcome × St
  | 0, _, _, _, _, st, _ => (.exc .outOfFuel, st)
  | _ + 1, _, [], _, _, st, last => (.ok last, st)
  | f + 1, var, item :: rest, body, env, st, last =>
    let st1 := insertVar env var item st
    match evaluate f body env st1 with
    | (.ok v, st2) => forIter f var rest body env st2 v
    | (.exc .breakExc, st2) => (.ok last, st2)
    | (.exc .continueExc, st2) => forIter f var rest body env st2 last
    | (.exc e, st2) => (.exc e, st2)
termination_by structural fuel => fuel

/-- Mirror of `_evaluate_subscript`: evaluate the collection, then the
index, then apply the pure `subscriptValue` dispatch. -/
def evaluateSubscript : Nat → PiStatement → PiStatement → Nat → St → Outcome × St
  | 0, _, _, _, st => (.exc .outOfFuel, st)
  | f + 1, coll, idx, env, st =>
    match evaluateStmt f coll env st with
    | (.exc e, st1) => (.exc e, st1)
    | (.ok cv, st1) =>
      match evaluateStmt f idx env st1 with
      | (.exc e, st2) => (.exc e, st2)
      | (.ok iv, st2) =>
        match subscriptValue cv iv with
        | .ok v => (.ok v, st2)
        | .error e => (.exc e, st2)
termination_by structural fuel => fuel

/-- Mirror of `_evaluate_in`: evaluate the container, then the element,
then apply the pure `inValue` dispatch. -/
def evaluateIn : Nat → PiStatement → PiStatement → Nat → St → Outcome × St
  | 0, _, _, _, st => (.exc .outOfFuel, st)
  | f + 1, c, e, env, st =>
    match evaluateStmt f c env st with
    | (.exc ex, st1) => (.exc ex, st1)
    | (.ok cv, st1) =>
      match evaluateStmt f e env st1 with
      | (.exc ex, st2) => (.exc ex, st2)
      | (.ok ev, st2) =>
        match inValue cv ev with
        | .ok v => (.ok v, st2)
        | .error ex => (.exc ex, st2)
termination_by structural fuel => fuel

/-- Mirror of `_evaluate_function_call`: evaluate the callee, evaluate
the arguments left-to-right, then dispatch through `callValue`. -/
def evaluateFunctionCall : Nat → PiStatement → List PiStatement → Nat → St → Outcome × St
  | 0, _, _, _, st => (.exc .outOfFuel, st)
  | f + 1, fn, args, env, st =>
    match evaluateStmt f fn env st with
    | (.exc e, st1) => (.exc e, st1)
    | (.ok fv, st1) =>
      match evalArgs f args env st1 with
      | (.error e, st2) => (.exc e, st2)
      | (.ok argVals, st2) => callValue f fv argVals env st2
termination_by structural fuel => fuel

/-- The dispatch of `_evaluate_function_call` on the evaluated callee:
class instantiation (allocate the object, call `__init__` when present
and discard its result, return the object), method call, user function
call, anything else `TypeError`.  The host-implemented primitive branch
(`callable(func_val)`) belongs to the external primitive library and has
no representative among the `Value` variants. -/
def callValue : Nat → Value → List Value → Nat → St → Outcome × St
  | 0, _, _, _, st => (.exc .outOfFuel, st)
  | f + 1, funcVal, args, env, st =>
    match funcVal with
    | .vClassDef cname methods =>
      let alloc := allocObject cname methods st
      match assocGet "__init__" methods with
      | some fdc =>
        match executeMethodCall f fdc.1 fdc.2 alloc.1 args env alloc.2 with
        | (.ok _, st2) => (.ok (.vObject alloc.1), st2)
        | (.exc e, st2) => (.exc e, st2)
      | none => (.ok (.vObject alloc.1), alloc.2)
    | .vMethodClosure fd cenv inst => executeMethodCall f fd cenv inst args env st
    | .vFunctionClosure fd cenv => executeFunctionCall f fd cenv args env st
    | _ => (.exc (.typeError notCallableMsg), st)
termination_by structural fuel => fuel

/-- Mirror of `_execute_function_call`: new frame whose parent is the
closure frame (the caller frame argument is unused, as in the source),
parameter binding, body execution, `Returning` intercepted by the call
boundary. -/
def executeFunctionCall : Nat → FuncDefData → Nat → List Value → Nat → St → Outcome × St
  | 0, _, _, _, _, st => (.exc .outOfFuel, st)
  | f + 1, fd, cenv, args, _env, st =>
    let setup := callFrameSetup cenv st
    match bindParams fd args with
    | .error e => (.exc e, setup.2)
    | .ok binds =>
      callBoundary (runBody f fd.body setup.1 (setFrameVars setup.1 binds setup.2) .vNone)
termination_by structural fuel => fuel

/-- Mirror of `_execute_method_call`: new frame whose parent is the
closure frame, the mandatory leading `self` parameter bound to the
receiver, positional binding of the remaining parameters with a strict
surplus check (the vararg field is never consulted on this path), body
execution; an explicit `Returning` payload is returned as-is, and only a
body that completes normally has its result replaced by `None` for
`__init__`. -/
def executeMethodCall : Nat → FuncDefData → Nat → Nat → List Value → Nat → St → Outcome × St
  | 0, _, _, _, _, _, st => (.exc .outOfFuel, st)
  | f + 1, fd, cenv, inst, args, _env, st =>
    let setup := callFrameSetup cenv st
    if fd.argNames.head? = some "self" then
      match bindMethodPositional (fd.argNames.drop 1) args [("self", .vObject inst)] with
      | .error e => (.exc e, setup.2)
      | .ok binds =>
        if args.length > (fd.argNames.drop 1).length then
          (.exc (.typeError tooManyArgMethodMsg), setup.2)
        else
          match runBody f fd.body setup.1 (setFrameVars setup.1 binds setup.2) .vNone with
          | (.exc (.returnExc v), st3) => (.ok v, st3)
          | (.ok v, st3) => if fd.name == "__init__" then (.ok .vNone, st3) else (.ok v, st3)
          | (.exc e, st3) => (.exc e, st3)
    else (.exc (.typeError selfMsg), setup.2)
termination_by structural fuel => fuel

end

/-- Modelled from the spec: `initial_env()` pre-populates the root frame
with the primitive-procedure table, an external collaborator explicitly
excluded from the core (spec section 1); no claim exercises a primitive,
so the root frame starts empty here. -/
def initialSt : St := { frames := [{ vars := [], parent := none }], objects := [] }

/-- Run a program: `evaluate(node, initial_env())`. -/
def run (fuel : Nat) (prog : List PiStatement) : Outcome × St :=
  evaluate fuel prog 0 initialSt


/-! ## Concrete test programs -/

/-- Function definition `def f(): return y` used by the closure-capture
scenario. -/
def fdF : FuncDefData := .mk "f" [] none [.piReturn (.piVariable "y")]

/-- The spec scenario: `y = 1; def f(): return y; y = 2; f()`. -/
def closureCaptureProg : List PiStatement :=
  [ .piAssignment "y" (.piNumber 1),
    .piFunctionDef fdF,
    .piAssignment "y" (.piNumber 2),
    .piFunctionCall (.piVariable "f") [] ]

/-- Function whose whole body is a bare `break`. -/
def fdBreak : FuncDefData := .mk "f" [] none [.piBreak]

/-- Function whose whole body is a bare `continue`. -/
def fdCont : FuncDefData := .mk "g" [] none [.piContinue]

/-- `def f(): break` then `x = 0; for i in [1,2]: f(); x = 99` and read
`x`: if the Break signal escapes `f` into the caller's loop, the loop
terminates on iteration one and `x` stays `0`. -/
def breakEscapeProg : List PiStatement :=
  [ .piFunctionDef fdBreak,
    .piAssignment "x" (.piNumber 0),
    .piFor "i" (.piList [.piNumber 1, .piNumber 2])
      [ .piFunctionCall (.piVariable "f") [],
        .piAssignment "x" (.piNumber 99) ],
    .piVariable "x" ]

/-- `def f(): break` called with no loop anywhere. -/
def bareBreakProg : List PiStatement :=
  [ .piFunctionDef fdBreak, .piFunctionCall (.piVariable "f") [] ]

/-- `def g(): continue` called with no loop anywhere. -/
def bareContinueProg : List PiStatement :=
  [ .piFunctionDef fdCont, .piFunctionCall (.piVariable "g") [] ]

/-- Method `def m(self, a, *rest): return a`, declared with a variadic
parameter. -/
def fdM : FuncDefData := .mk "m" ["self", "a"] (some "rest") [.piReturn (.piVariable "a")]

/-- `class C: m(self, a, *rest)...; o = C(); o.m(1, 2)`. -/
def methodVarargProg : List PiStatement :=
  [ .piClassDef "C" [fdM],
    .piAssignment "o" (.piFunctionCall (.piVariable "C") []),
    .piFunctionCall (.piAttribute (.piVariable "o") "m") [.piNumber 1, .piNumber 2] ]

/-- Initializer with an explicit `return 42`. -/
def fdInit : FuncDefData := .mk "__init__" ["self"] none [.piReturn (.piNumber 42)]

/-- `class D: __init__(self): return 42` then `D()`. -/
def initReturnProg : List PiStatement :=
  [ .piClassDef "D" [fdInit],
    .piFunctionCall (.piVariable "D") [] ]

/-- `class E: pass` then `E(1, 2, 3)`: no initializer, surplus arguments. -/
def classNoInitProg : List PiStatement :=
  [ .piClassDef "E" [],
    .piFunctionCall (.piVariable "E") [.piNumber 1, .piNumber 2, .piNumber 3] ]

/-- `[1, 2][5]`: out-of-range subscript. -/
def subOobProg : List PiStatement :=
  [ .piSubscript (.piList [.piNumber 1, .piNumber 2]) (.piNumber 5) ]

/-- `5[0]`: subscript of a non-collection. -/
def subTypeErrProg : List PiStatement :=
  [ .piSubscript (.piNumber 5) (.piNumber 0) ]

/-- `"ab"[7]`: out-of-range string subscript. -/
def strOobProg : List PiStatement :=
  [ .piSubscript (.piString "ab") (.piNumber 7) ]

/-- `[10, 20, 30][-1]`. -/
def negIndexProg : List PiStatement :=
  [ .piSubscript (.piList [.piNumber 10, .piNumber 20, .piNumber 30]) (.piNumber (-1)) ]

/-- `"abc"[-2]`. -/
def negIndexStrProg : List PiStatement :=
  [ .piSubscript (.piString "abc") (.piNumber (-2)) ]

/-- `class E: pass; o = E(); o.foo`: attribute lookup that misses. -/
def attrMissProg : List PiStatement :=
  [ .piClassDef "E" [],
    .piAssignment "o" (.piFunctionCall (.piVariable "E") []),
    .piAttribute (.piVariable "o") "foo" ]

/-- `3()`: calling a non-callable. -/
def notCallableProg : List PiStatement :=
  [ .piFunctionCall (.piNumber 3) [] ]

/-- `"a" in "abc"`. -/
def inProg1 : List PiStatement := [ .piIn (.piString "abc") (.piString "a") ]

/-- `1 in "abc"`. -/
def inProg2 : List PiStatement := [ .piIn (.piString "abc") (.piNumber 1) ]

/-- `1 in [1, 2]`. -/
def inProg3 : List PiStatement :=
  [ .piIn (.piList [.piNumber 1, .piNumber 2]) (.piNumber 1) ]

/-- `"x" in 5`. -/
def inProg4 : List PiStatement := [ .piIn (.piNumber 5) (.piString "x") ]

/-- Two-parameter non-variadic function `def g2(a, b): return a`. -/
def fd2 : FuncDefData := .mk "g2" ["a", "b"] none [.piReturn (.piVariable "a")]

/-- Two fixed parameters plus a variadic: `def h(a, b, *rest): return rest`. -/
def fdVar : FuncDefData := .mk "h" ["a", "b"] (some "rest") [.piReturn (.piVariable "rest")]

/-- `def g2(a, b): ...; g2(1)`. -/
def arityMissingProg : List PiStatement :=
  [ .piFunctionDef fd2, .piFunctionCall (.piVariable "g2") [.piNumber 1] ]

/-- `def g2(a, b): ...; g2(1, 2, 3)`. -/
def arityTooManyProg : List PiStatement :=
  [ .piFunctionDef fd2,
    .piFunctionCall (.piVariable "g2") [.piNumber 1, .piNumber 2, .piNumber 3] ]

/-- `def h(a, b, *rest): return rest; h(1, 2, 3)`. -/
def arityVarProg : List PiStatement :=
  [ .piFunctionDef fdVar,
    .piFunctionCall (.piVariable "h") [.piNumber 1, .piNumber 2, .piNumber 3] ]

/-- A program that ends in a plain `return`-carrying call. -/
def returnValProg : List PiStatement :=
  [ .piFunctionDef (.mk "r" [] none [.piReturn (.piNumber 7)]),
    .piFunctionCall (.piVariable "r") [] ]

/-! ## Outcome and value predicates used by the claims -/

/-- The uniform evaluation failure of spec section 7: the `RuntimeError`
produced by the `except` wrapper. -/
def isUniformFailure : Outcome → Bool
  | .exc (.runtimeError _) => true
  | _ => false

/-- Collection kinds accepted by Subscript. -/
def isIndexable : Value → Bool
  | .vList _ => true
  | .vTuple _ => true
  | .vString _ => true
  | _ => false

/-- Number test. -/
def isNumberValue : Value → Bool
  | .vNumber _ => true
  | _ => false

/-- String test. -/
def isStringValue : Value → Bool
  | .vString _ => true
  | _ => false

/-- Container kinds accepted by `in`. -/
def isInContainer : Value → Bool
  | .vList _ => true
  | .vTuple _ => true
  | .vString _ => true
  | _ => false

/-! ## Supporting lemmas -/

theorem assocGet_assocSet_self {α : Type} (k : String) (v : α) (l : List (String × α)) :
    assocGet k (assocSet k v l) = some v := by
  induction l with
  | nil => simp [assocSet, assocGet]
  | cons hd t ih =>
    obtain ⟨k2, v2⟩ := hd
    by_cases hk : k2 = k
    · simp [assocSet, assocGet, hk]
    · simp [assocSet, assocGet, hk, ih]

theorem bindPositional_missing (ns : List String) (args : List Value)
    (acc : List (String × Value)) (h : args.length < ns.length) :
    bindPositional ns args acc = .error (.typeError missingArgFunMsg) := by
  induction ns generalizing args acc with
  | nil => simp at h
  | cons n ns ih =>
    cases args with
    | nil => rfl
    | cons a as_ =>
      simp only [List.length_cons] at h
      simpa only [bindPositional] using ih as_ (assocSet n a acc) (by omega)

theorem bindPositional_ok (ns : List String) (args : List Value)
    (acc : List (String × Value)) (h : ns.length ≤ args.length) :
    ∃ acc2, bindPositional ns args acc = .ok acc2 := by
  induction ns generalizing args acc with
  | nil => exact ⟨acc, rfl⟩
  | cons n ns ih =>
    cases args with
    | nil => simp at h
    | cons a as_ =>
      simp only [List.length_cons] at h
      simpa only [bindPositional] using ih as_ (assocSet n a acc) (by omega)

theorem bindMethodPositional_ok (ns : List String) (args : List Value)
    (acc : List (String × Value)) (h : ns.length ≤ args.length) :
    ∃ acc2, bindMethodPositional ns args acc = .ok acc2 := by
  induction ns generalizing args acc with
  | nil => exact ⟨acc, rfl⟩
  | cons n ns ih =>
    cases args with
    | nil => simp at h
    | cons a as_ =>
      simp only [List.length_cons] at h
      simpa only [bindMethodPositional] using ih as_ (assocSet n a acc) (by omega)

theorem getElem_append_length {α : Type} (l : List α) (a : α) :
    (l ++ [a])[l.length]? = some a := by
  induction l with
  | nil => rfl
  | cons x xs ih => simp [ih]

theorem pyGetElem_nonneg {α : Type} (l : List α) (i : Int) (h : 0 ≤ i) :
    pyGetElem l i = l[i.toNat]? := by
  simp [pyGetElem, h]

theorem pyGetElem_neg {α : Type} (l : List α) (i : Int) (h1 : i < 0)
    (h2 : -(l.length : Int) ≤ i) :
    pyGetElem l i = l[((l.length : Int) + i).toNat]? := by
  have hn : ¬ 0 ≤ i := by omega
  have hle : (-i).toNat ≤ l.length := by omega
  have hidx : l.length - (-i).toNat = ((l.length : Int) + i).toNat := by omega
  simp only [pyGetElem, if_neg hn, if_pos hle, hidx]

theorem pyGetElem_oob {α : Type} (l : List α) (i : Int)
    (h : (l.length : Int) ≤ i ∨ i < -(l.length : Int)) :
    pyGetElem l i = none := by
  rcases h with h | h
  · have h0 : 0 ≤ i := by omega
    rw [pyGetElem_nonneg l i h0]
    apply List.getElem?_eq_none
    omega
  · have hn : ¬ 0 ≤ i := by omega
    have hgt : ¬ (-i).toNat ≤ l.length := by omega
    simp [pyGetElem, hn, hgt]


/-! ## Claim C1 -/

/-- Claim C1: every call of a FunctionClosure executes the body in a new
Environment frame whose parent is the closure's captured definition-time
frame, never the caller's frame, and the capture is by reference: the
result of `_execute_function_call` is independent of the caller frame
argument; the call frame is freshly appended (index `st.frames.length`),
empty, with parent the captured frame; once parameter binding succeeds
the body runs in exactly that frame; and the spec scenario `y = 1;
def f(): return y; y = 2; f()` observes `2`. -/
theorem closure_call_uses_captured_frame :
    (∀ fuel fd cenv args env1 env2 st,
        executeFunctionCall fuel fd cenv args env1 st
          = executeFunctionCall fuel fd cenv args env2 st)
    ∧ (∀ cenv st, (callFrameSetup cenv st).1 = st.frames.length
        ∧ (callFrameSetup cenv st).2.frames[(callFrameSetup cenv st).1]?
            = some { vars := [], parent := some cenv })
    ∧ (∀ fuel fd cenv args env st bs, bindParams fd args = Except.ok bs →
        executeFunctionCall (fuel + 1) fd cenv args env st
          = callBoundary (runBody fuel fd.body (callFrameSetup cenv st).1
              (setFrameVars (callFrameSetup cenv st).1 bs (callFrameSetup cenv st).2) .vNone))
    ∧ (run 30 closureCaptureProg).1 = .ok (.vNumber 2) := by
  refine ⟨?_, ?_, ?_, rfl⟩
  · intro fuel fd cenv args env1 env2 st
    cases fuel <;> rfl
  · intro cenv st
    exact ⟨rfl, getElem_append_length st.frames _⟩
  · intro fuel fd cenv args env st bs h
    simp only [executeFunctionCall, h]

/-- Witness for the hypothesis-bearing part of C1, at the concrete
closure `fdF` called with no arguments. -/
theorem closure_call_uses_captured_frame_witness :
    executeFunctionCall 6 fdF 0 [] 9 initialSt
      = callBoundary (runBody 5 fdF.body (callFrameSetup 0 initialSt).1
          (setFrameVars (callFrameSetup 0 initialSt).1 [] (callFrameSetup 0 initialSt).2) .vNone) :=
  closure_call_uses_captured_frame.2.2.1 5 fdF 0 [] 9 initialSt [] rfl

/-! ## Claim C2 -/

/-- Claim C2 counterexample: a Break signal reaching a call boundary with
no enclosing loop inside the current call is *not* a `NoEnclosingLoop`
fault — it escapes into the caller's context.  In
`def f(): break; x = 0; for i in [1, 2]: f(); x = 99` the Break raised
inside `f` terminates the *caller's* loop (so `x` stays `0` and the run
succeeds), and with no loop anywhere the raw Break exception surfaces to
the evaluator's caller instead of any classified fault. -/
theorem break_escapes_call_counterexample :
    (run 30 breakEscapeProg).1 = .ok (.vNumber 0)
    ∧ (run 30 bareBreakProg).1 = .exc .breakExc :=
  ⟨rfl, rfl⟩

/-- Claim C2 (amended): a function- or method-call boundary intercepts
only the Returning signal, converting it into the call's result value;
Breaking and Continuing are not intercepted there and propagate into the
caller's context, where an enclosing loop of the caller may catch them;
no `NoEnclosingLoop` fault exists — with no enclosing loop anywhere the
raw signal escapes the evaluator. -/
theorem call_boundary_intercepts_only_return :
    (∀ st v, callBoundary (.exc (.returnExc v), st) = (.ok v, st))
    ∧ (∀ st, callBoundary (.exc .breakExc, st) = (.exc .breakExc, st))
    ∧ (∀ st, callBoundary (.exc .continueExc, st) = (.exc .continueExc, st))
    ∧ (run 30 returnValProg).1 = .ok (.vNumber 7)
    ∧ (run 30 bareContinueProg).1 = .exc .continueExc :=
  ⟨fun _ _ => rfl, fun _ => rfl, fun _ => rfl, rfl, rfl⟩

/-! ## Claim C3 -/

/-- Claim C3 counterexample: a method declared with a variadic parameter
(`def m(self, a, *rest): return a`) called with one surplus argument
does not collect it into `rest` — the call fails `TooManyArguments`
(surfacing as the uniform failure). -/
theorem method_vararg_rejected_counterexample :
    (run 30 methodVarargProg).1 = .exc (.runtimeError tooManyArgMethodMsg) := rfl

/-- Claim C3 (amended): the method-call protocol ignores any declared
variadic parameter: arguments beyond the fixed parameters (offset by one
for the receiver) always fail `TooManyArguments`, whatever the `vararg`
field holds, and the variadic name is never bound. -/
theorem method_surplus_args_always_fail :
    ∀ fuel fd cenv inst args env st,
      fd.argNames.head? = some "self" →
      fd.argNames.length - 1 < args.length →
      (executeMethodCall (fuel + 1) fd cenv inst args env st).1
        = .exc (.typeError tooManyArgMethodMsg) := by
  intro fuel fd cenv inst args env st h1 h2
  have hlen : (fd.argNames.drop 1).length ≤ args.length := by
    simp only [List.length_drop]
    omega
  obtain ⟨acc2, hbind⟩ :=
    bindMethodPositional_ok (fd.argNames.drop 1) args [("self", .vObject inst)] hlen
  have hgt : args.length > (fd.argNames.drop 1).length := by
    simp only [List.length_drop]
    omega
  simp only [executeMethodCall, if_pos h1, hbind, if_pos hgt]

/-- Witness for C3's amended theorem at the concrete method `fdM` with
one surplus argument. -/
theorem method_surplus_args_always_fail_witness :
    fdM.argNames.head? = some "self" ∧ fdM.argNames.length - 1 < 2 ∧
    (executeMethodCall 6 fdM 0 0 [.vNumber 1, .vNumber 2] 0 initialSt).1
      = .exc (.typeError tooManyArgMethodMsg) :=
  ⟨rfl, by decide,
    method_surplus_args_always_fail 5 fdM 0 0 [.vNumber 1, .vNumber 2] 0 initialSt rfl
      (by decide)⟩

/-! ## Claim C10 -/

/-- Claim C10: calling a ClassDef that defines no `__init__` succeeds
for any argument list, returning a new Object with an empty attribute
mapping; the evaluated arguments are silently discarded — the result
does not depend on them and no arity check of any kind runs. -/
theorem class_without_init_ignores_args :
    (∀ fuel c ms args env st, assocGet "__init__" ms = none →
        callValue (fuel + 1) (.vClassDef c ms) args env st
          = (.ok (.vObject st.objects.length),
              { st with objects := st.objects ++ [⟨c, ms, []⟩] }))
    ∧ (run 30 classNoInitProg).1 = .ok (.vObject 0) := by
  refine ⟨?_, rfl⟩
  intro fuel c ms args env st h
  simp only [callValue, allocObject, h]

/-- Witness for C10 at the concrete class `E` with no methods and three
arguments. -/
theorem class_without_init_ignores_args_witness :
    callValue 11 (.vClassDef "E" []) [.vNumber 1, .vNumber 2, .vNumber 3] 0 initialSt
      = (.ok (.vObject 0), { initialSt with objects := [⟨"E", [], []⟩] }) :=
  class_without_init_ignores_args.1 10 "E" [] [.vNumber 1, .vNumber 2, .vNumber 3] 0
    initialSt rfl


/-! ## Claim C4 -/

/-- Claim C4: every instantiation of a ClassDef returns the newly
allocated Object — allocated with an empty attribute mapping — and never
the initializer's result: whenever the class-callee dispatch produces a
value it is the fresh object reference, and the concrete class `D` whose
`__init__` explicitly returns `42` still yields the Object from `D()`. -/
theorem instantiation_returns_new_object :
    (∀ fuel c ms args env st v,
        (callValue fuel (.vClassDef c ms) args env st).1 = .ok v →
        v = .vObject st.objects.length)
    ∧ (∀ c ms st, (allocObject c ms st).1 = st.objects.length
        ∧ (allocObject c ms st).2.objects[(allocObject c ms st).1]?
            = some { className := c, methods := ms, attrs := [] })
    ∧ (run 30 initReturnProg).1 = .ok (.vObject 0) := by
  refine ⟨?_, ?_, rfl⟩
  · intro fuel c ms args env st v h
    cases fuel with
    | zero => simp [callValue] at h
    | succ f =>
      simp only [callValue] at h
      split at h
      · split at h
        · simp only [allocObject] at h
          simp at h
          exact h.symm
        · simp at h
      · simp only [allocObject] at h
        simp at h
        exact h.symm
  · intro c ms st
    exact ⟨rfl, getElem_append_length st.objects _⟩

/-- Witness for the hypothesis-bearing part of C4, at the concrete class
`D` of `initReturnProg` whose `__init__` returns `42`. -/
theorem instantiation_returns_new_object_witness :
    Value.vObject 0 = .vObject initialSt.objects.length :=
  instantiation_returns_new_object.1 10 "D" [("__init__", fdInit, 0)] [] 0 initialSt
    (.vObject 0) rfl

/-! ## Claim C7 -/

/-- Claim C7: for a non-variadic FunctionClosure with `n` declared
parameters, a call with fewer than `n` arguments fails `MissingArgument`
and a call with more than `n` fails `TooManyArguments`; with a declared
variadic parameter, a call with `n + k` arguments (`k >= 0`) binds the
variadic name to the new `k`-element List of the surplus arguments in
order.  The concrete runs exercise a 2-parameter function with 1 and 3
arguments and a 2+variadic function with 3 arguments. -/
theorem function_call_arity :
    (∀ fuel fd cenv args env st, fd.vararg = none →
        args.length < fd.argNames.length →
        (executeFunctionCall (fuel + 1) fd cenv args env st).1
          = .exc (.typeError missingArgFunMsg))
    ∧ (∀ fuel fd cenv args env st, fd.vararg = none →
        fd.argNames.length < args.length →
        (executeFunctionCall (fuel + 1) fd cenv args env st).1
          = .exc (.typeError tooManyArgFunMsg))
    ∧ (∀ fd args vn, fd.vararg = some vn →
        fd.argNames.length ≤ args.length →
        ∃ bs, bindParams fd args = .ok bs
          ∧ assocGet vn bs = some (.vList (args.drop fd.argNames.length))
          ∧ (args.drop fd.argNames.length).length = args.length - fd.argNames.length)
    ∧ (run 30 arityMissingProg).1 = .exc (.runtimeError missingArgFunMsg)
    ∧ (run 30 arityTooManyProg).1 = .exc (.runtimeError tooManyArgFunMsg)
    ∧ (run 30 arityVarProg).1 = .ok (.vList [.vNumber 3]) := by
  refine ⟨?_, ?_, ?_, rfl, rfl, rfl⟩
  · intro fuel fd cenv args env st _hv h
    have hb : bindParams fd args = .error (.typeError missingArgFunMsg) := by
      unfold bindParams
      rw [bindPositional_missing fd.argNames args [] h]
    simp only [executeFunctionCall, hb]
  · intro fuel fd cenv args env st hv h
    obtain ⟨acc, hacc⟩ := bindPositional_ok fd.argNames args [] (le_of_lt h)
    have hb : bindParams fd args = .error (.typeError tooManyArgFunMsg) := by
      unfold bindParams
      rw [hacc, hv]
      simp [h]
    simp only [executeFunctionCall, hb]
  · intro fd args vn hv h
    obtain ⟨acc, hacc⟩ := bindPositional_ok fd.argNames args [] h
    refine ⟨assocSet vn (.vList (args.drop fd.argNames.length)) acc, ?_, ?_, ?_⟩
    · unfold bindParams
      rw [hacc, hv]
    · exact assocGet_assocSet_self vn _ acc
    · simp [List.length_drop]

/-- Witness for C7's variadic part at `fdVar` (two fixed parameters plus
`*rest`) applied to three arguments: `rest` is bound to the 1-element
List holding the third argument. -/
theorem function_call_arity_witness :
    fdVar.vararg = some "rest" ∧ fdVar.argNames.length ≤ 3 ∧
    ∃ bs, bindParams fdVar [.vNumber 1, .vNumber 2, .vNumber 3] = .ok bs
      ∧ assocGet "rest" bs
          = some (.vList ([.vNumber 1, .vNumber 2, .vNumber 3].drop fdVar.argNames.length))
      ∧ ([(Value.vNumber 1), .vNumber 2, .vNumber 3].drop fdVar.argNames.length).length
          = [(Value.vNumber 1), .vNumber 2, .vNumber 3].length - fdVar.argNames.length :=
  ⟨rfl, by decide,
    function_call_arity.2.2.1 fdVar [.vNumber 1, .vNumber 2, .vNumber 3] "rest" rfl
      (by decide)⟩

/-! ## Claim C8 -/

/-- Claim C8: `in` dispatches on the container kind — List/Tuple use a
structural-equality membership test over the elements, a String
container does a substring test when the element is a String and yields
plain `false` (no error) otherwise, and every other container kind fails
`TypeMismatch`.  The concrete runs are the four spec examples. -/
theorem in_operator_semantics :
    (∀ elems e, inValue (.vList elems) e = .ok (.vBool (elems.any fun x => valueEq e x)))
    ∧ (∀ elems e, inValue (.vList elems) e = .ok (.vBool true)
        ↔ ∃ x ∈ elems, valueEq e x = true)
    ∧ (∀ elems e, inValue (.vTuple elems) e = .ok (.vBool (elems.any fun x => valueEq e x)))
    ∧ (∀ s t, inValue (.vString s) (.vString t) = .ok (.vBool (isSubSeq t.toList s.toList)))
    ∧ (∀ s e, isStringValue e = false → inValue (.vString s) e = .ok (.vBool false))
    ∧ (∀ c e, isInContainer c = false → inValue c e = .error (.typeError inTypeMsg))
    ∧ (run 30 inProg1).1 = .ok (.vBool true)
    ∧ (run 30 inProg2).1 = .ok (.vBool false)
    ∧ (run 30 inProg3).1 = .ok (.vBool true)
    ∧ (run 30 inProg4).1 = .exc (.runtimeError inTypeMsg) := by
  refine ⟨fun _ _ => rfl, ?_, fun _ _ => rfl, fun _ _ => rfl, ?_, ?_, rfl, rfl, rfl, rfl⟩
  · intro elems e
    simp [inValue, List.any_eq_true]
  · intro s e he
    cases e <;> simp_all [inValue, isStringValue]
  · intro c e hc
    cases c <;> simp_all [inValue, isInContainer]

/-- Witness for the hypothesis-bearing parts of C8: a Number element in
a String container yields `false` without error. -/
theorem in_operator_semantics_witness :
    isStringValue (.vNumber 1) = false
    ∧ inValue (.vString "abc") (.vNumber 1) = .ok (.vBool false) :=
  ⟨rfl, in_operator_semantics.2.2.2.2.1 "abc" (.vNumber 1) rfl⟩

/-! ## Claim C9 -/

/-- Claim C9: a Subscript on a List, Tuple or String with a Number index
truncating to a negative integer `i` with `-n <= i < 0` does not fail
but returns the element at position `n + i`, counting from the end.
The concrete runs evaluate `[10, 20, 30][-1]` and `"abc"[-2]`. -/
theorem negative_subscript_counts_from_end :
    (∀ (elems : List Value) q v, ratTrunc q < 0 →
        -(elems.length : Int) ≤ ratTrunc q →
        elems[((elems.length : Int) + ratTrunc q).toNat]? = some v →
        subscriptValue (.vList elems) (.vNumber q) = .ok v)
    ∧ (∀ (elems : List Value) q v, ratTrunc q < 0 →
        -(elems.length : Int) ≤ ratTrunc q →
        elems[((elems.length : Int) + ratTrunc q).toNat]? = some v →
        subscriptValue (.vTuple elems) (.vNumber q) = .ok v)
    ∧ (∀ (s : String) q c, ratTrunc q < 0 →
        -(s.toList.length : Int) ≤ ratTrunc q →
        s.toList[((s.toList.length : Int) + ratTrunc q).toNat]? = some c →
        subscriptValue (.vString s) (.vNumber q) = .ok (.vString c.toString))
    ∧ (run 30 negIndexProg).1 = .ok (.vNumber 30)
    ∧ (run 30 negIndexStrProg).1 = .ok (.vString "b") := by
  refine ⟨?_, ?_, ?_, rfl, rfl⟩
  · intro elems q v h1 h2 h3
    simp only [subscriptValue, checkNumber]
    rw [pyGetElem_neg elems (ratTrunc q) h1 h2, h3]
  · intro elems q v h1 h2 h3
    simp only [subscriptValue, checkNumber]
    rw [pyGetElem_neg elems (ratTrunc q) h1 h2, h3]
  · intro s q c h1 h2 h3
    simp only [subscriptValue, checkNumber]
    rw [pyGetElem_neg s.toList (ratTrunc q) h1 h2, h3]

/-- Witness for C9 at `[10, 20, 30][-1]`. -/
theorem negative_subscript_counts_from_end_witness :
    ratTrunc (-1) < 0
    ∧ subscriptValue (.vList [.vNumber 10, .vNumber 20, .vNumber 30]) (.vNumber (-1))
        = .ok (.vNumber 30) :=
  ⟨by decide,
    negative_subscript_counts_from_end.1 [.vNumber 10, .vNumber 20, .vNumber 30] (-1)
      (.vNumber 30) (by decide) (by decide) rfl⟩


/-! ## Claim C5 -/

/-- Claim C5 counterexample: an out-of-range subscript (`[1, 2][5]`)
fails with the host `IndexError`, which is *not* re-surfaced as the
uniform evaluation failure — the `except` wrapper catches only
`TypeError`, `ZeroDivisionError` and `ValueError`. -/
theorem subscript_oob_not_uniform_counterexample :
    (run 30 subOobProg).1 = .exc .indexError
    ∧ isUniformFailure (run 30 subOobProg).1 = false :=
  ⟨rfl, rfl⟩

/-- Claim C5 (amended): Subscript requires a List, Tuple or String
collection (else `TypeMismatch`, re-surfaced as the uniform failure) and
a Number index truncated toward zero to an integer; an out-of-range
index fails with the host `IndexError`, which escapes to the caller
unwrapped instead of re-surfacing as the uniform evaluation failure. -/
theorem subscript_semantics :
    (∀ c i, isIndexable c = false →
        subscriptValue c i = .error (.typeError subscriptTypeMsg))
    ∧ (∀ elems i, isNumberValue i = false →
        subscriptValue (.vList elems) i = .error (.typeError checkTypeMsg))
    ∧ (∀ (elems : List Value) q v, 0 ≤ ratTrunc q →
        elems[(ratTrunc q).toNat]? = some v →
        subscriptValue (.vList elems) (.vNumber q) = .ok v)
    ∧ (∀ (elems : List Value) q, ((elems.length : Int) ≤ ratTrunc q ∨
        ratTrunc q < -(elems.length : Int)) →
        subscriptValue (.vList elems) (.vNumber q) = .error .indexError)
    ∧ (∀ (s : String) q ch, 0 ≤ ratTrunc q →
        s.toList[(ratTrunc q).toNat]? = some ch →
        subscriptValue (.vString s) (.vNumber q) = .ok (.vString ch.toString))
    ∧ ratTrunc (mkRat 5 2) = 2 ∧ ratTrunc (mkRat (-5) 2) = -2
    ∧ (run 30 subTypeErrProg).1 = .exc (.runtimeError subscriptTypeMsg)
    ∧ (run 30 strOobProg).1 = .exc .indexError
    ∧ isUniformFailure (run 30 strOobProg).1 = false := by
  refine ⟨?_, ?_, ?_, ?_, ?_, by decide, by decide, rfl, rfl, rfl⟩
  · intro c i hc
    cases c <;> simp_all [subscriptValue, isIndexable]
  · intro elems i hi
    cases i <;> simp_all [subscriptValue, checkNumber, isNumberValue]
  · intro elems q v h1 h2
    simp only [subscriptValue, checkNumber]
    rw [pyGetElem_nonneg elems (ratTrunc q) h1, h2]
  · intro elems q h
    simp only [subscriptValue, checkNumber]
    rw [pyGetElem_oob elems (ratTrunc q) h]
  · intro s q ch h1 h2
    simp only [subscriptValue, checkNumber]
    rw [pyGetElem_nonneg s.toList (ratTrunc q) h1, h2]

/-- Witness for the hypothesis-bearing parts of C5's amended theorem:
`[7][0]` returns the stored element. -/
theorem subscript_semantics_witness :
    (0 : Int) ≤ ratTrunc 0
    ∧ subscriptValue (.vList [.vNumber 7]) (.vNumber 0) = .ok (.vNumber 7) :=
  ⟨by decide, subscript_semantics.2.2.1 [.vNumber 7] 0 (.vNumber 7) (by decide) rfl⟩

/-! ## Claim C6 -/

/-- Claim C6 counterexample: `AttributeNotFound` is one of the listed
error kinds, yet `o.foo` on an attribute-less object surfaces the raw
host `AttributeError`, not the uniform evaluation failure: the `except`
wrapper of the core catches only `TypeError`, `ZeroDivisionError` and
`ValueError`. -/
theorem attribute_error_not_uniform_counterexample :
    (run 30 attrMissProg).1 = .exc (.attributeError (noAttrMsg "foo"))
    ∧ isUniformFailure (run 30 attrMissProg).1 = false :=
  ⟨rfl, rfl⟩

/-- Claim C6 (amended): detecting any of the classified errors aborts
evaluation immediately with no partial result (the statement-sequence
loop stops at the first raised exception), and the kinds raised as host
`TypeError` / `ZeroDivisionError` / `ValueError` re-surface as the
uniform `RuntimeError` failure; but `AttributeNotFound` and
`IndexOutOfRange` escape to the caller as their own host exceptions
(`AttributeError`, `IndexError`), not as the uniform failure. -/
theorem error_surfacing_behaviour :
    (∀ m, wrapExc (.typeError m) = .runtimeError m)
    ∧ (∀ m, wrapExc (.zeroDivisionError m) = .runtimeError m)
    ∧ (∀ m, wrapExc (.valueError m) = .runtimeError m)
    ∧ wrapExc .indexError = .indexError
    ∧ (∀ m, wrapExc (.attributeError m) = .attributeError m)
    ∧ (∀ fuel s rest env st e st1,
        evaluateStmt fuel s env st = (.exc e, st1) →
        runBody (fuel + 1) (s :: rest) env st .vNone = (.exc e, st1))
    ∧ (run 30 notCallableProg).1 = .exc (.runtimeError notCallableMsg)
    ∧ (run 30 arityMissingProg).1 = .exc (.runtimeError missingArgFunMsg)
    ∧ (run 30 attrMissProg).1 = .exc (.attributeError (noAttrMsg "foo"))
    ∧ (run 30 subOobProg).1 = .exc .indexError := by
  refine ⟨fun _ => rfl, fun _ => rfl, fun _ => rfl, rfl, fun _ => rfl, ?_,
    rfl, rfl, rfl, rfl⟩
  intro fuel s rest env st e st1 h
  simp only [runBody, h]

/-- Witness for the hypothesis-bearing part of C6's amended theorem: a
raised signal in the first statement skips the remainder of the
sequence. -/
theorem error_surfacing_behaviour_witness :
    evaluateStmt 1 .piBreak 0 initialSt = (.exc .breakExc, initialSt)
    ∧ runBody 2 [.piBreak, .piNone] 0 initialSt .vNone = (.exc .breakExc, initialSt) :=
  ⟨rfl, error_surfacing_behaviour.2.2.2.2.2.1 1 .piBreak [.piNone] 0 initialSt .breakExc
    initialSt rfl⟩

end Pithon
